import Mathlib

/-!
# Verification of `azurelinuxagent/daemon/datadisk/default.py`

A shallow embedding of the data-disk provisioning handler
(`DataDiskHandler`): partition probing and classification, conditional
partitioning/formatting, the mount retry ladder, swap-file reuse and
creation, and the tiered file allocator (`mkfile`).

## Modelling conventions

* External effects (shell commands via `shellutil.run` /
  `shellutil.run_get_output`, filesystem queries via `os.path.*`,
  `os.open`/`os.posix_fallocate`, `os.remove`, `os.chmod`,
  `fileutil.mkdir`, `osutil.get_mount_point`, `time.sleep`) are modelled
  with a `World` of response oracles.  Each kind of query carries its own
  call counter, so an oracle's answer may depend both on the call's rank
  and on its argument (the command string / path).  Every external call
  is also recorded in an `Action` trace inside the threaded state `St`.
* Exit codes are `Int` (Python ints); Python truthiness `if ret:` on an
  exit code is modelled as `ret != 0`.
* Python substring tests (`"x" in s`, `s.find("x") != -1`) are modelled
  by the executable `strHas`.
* `logger.info` calls are not part of the observable trace (pure
  logging, no claim depends on them); `logger.warn` / `logger.error` and
  `add_event` telemetry are recorded, because the spec distinguishes
  warning-level from error-level reporting.
* Configuration (`conf.get_datadisk_*`) and the interpreter version
  check `sys.version_info >= (3, 3)` are `World` fields.
* `DataDiskError` carries its message; the `inner` exception of the
  mkdir failure is already rendered into the message, as in the source.
-/

namespace DataDisk

/-! ## Observable actions -/

/-- One externally observable action of the handler.  `aRun` is
`shellutil.run`, `aRGO` is `shellutil.run_get_output` (the `Bool` is the
`chk_err` flag, `true` where the source leaves the default). -/
inductive Action where
  | aRun (cmd : String) (chkErr : Bool)
  | aRGO (cmd : String) (chkErr : Bool)
  | aGetMountPointQ (device : String)
  | aMkdir (path : String) (mode : Nat)
  | aExistsQ (path : String)
  | aSleep (secs : Nat)
  | aIsFileQ (path : String)
  | aGetSizeQ (path : String)
  | aStatQ (path : String)
  | aRemove (path : String)
  | aChmod (path : String) (mode : Nat)
  | aOpen (path : String)
  | aFallocate (offset : Int) (nbytes : Int)
  | aClose
  | aWarn (msg : String)
  | aLogErr (msg : String)
  | aTelemetry (op : String) (ok : Bool) (msg : String)
  deriving DecidableEq, Repr

/-- Python `DataDiskError`; only the rendered message matters here. -/
structure DataDiskError where
  msg : String
  deriving DecidableEq, Repr

/-- Response oracles for the external world, plus configuration. -/
structure World where
  /-- `conf.get_datadisk_filesystem()` (`self.fs`). -/
  conf_fs : String
  /-- `conf.get_datadisk_mountoptions()`. -/
  conf_mountOptions : Option String
  /-- `conf.get_datadisk_mountdirectory()`. -/
  conf_mountDirectory : String
  /-- `conf.get_datadisk_format()`. -/
  conf_format : Bool
  /-- `sys.version_info >= (3, 3)`. -/
  pyGe33 : Bool
  /-- whether `fileutil.mkdir` succeeds (otherwise it raises `OSError`). -/
  mkdirOk : Bool
  /-- rendering of the `OSError` raised by a failing `fileutil.mkdir`. -/
  mkdirErr : String
  /-- `osutil.get_mount_point(mount_list, device)`. -/
  getMountPoint : String → String → Option String
  /-- result of the n-th `shellutil.run_get_output` call: exit code and output. -/
  rgoRes : Nat → String → Int × String
  /-- result of the n-th `shellutil.run` call: exit code. -/
  runRes : Nat → String → Int
  /-- result of the n-th `os.path.exists` query. -/
  existsRes : Nat → String → Bool
  /-- result of the n-th `os.path.isfile` query. -/
  isFileRes : Nat → String → Bool
  /-- result of the n-th `os.path.getsize` query. -/
  sizeRes : Nat → String → Int
  /-- result of the n-th `os.stat(..).st_mode` query. -/
  modeRes : Nat → String → Nat
  /-- whether the n-th `os.open(.., O_CREAT|O_WRONLY|O_EXCL, 0600)` succeeds. -/
  openOk : Nat → Bool
  /-- whether the n-th `os.posix_fallocate` succeeds. -/
  fallocOk : Nat → Bool
  /-- `os.listdir(DATADISK_SCSI_PATH)`. -/
  listdir : List String
  /-- `os.readlink` on an entry of the scsi directory. -/
  readlink : String → String

/-- Threaded program state: one call counter per oracle kind, and the
trace of observable actions, in execution order. -/
structure St where
  rgoN : Nat := 0
  runN : Nat := 0
  exN : Nat := 0
  fileN : Nat := 0
  sizeN : Nat := 0
  modeN : Nat := 0
  openN : Nat := 0
  fallocN : Nat := 0
  trace : List Action := []
  deriving DecidableEq, Repr

def St.init : St := {}

def pushA (a : Action) (s : St) : St := { s with trace := s.trace ++ [a] }

/-- `shellutil.run_get_output(cmd, chk_err)`. -/
def rgoE (w : World) (chkErr : Bool) (cmd : String) (s : St) : (Int × String) × St :=
  (w.rgoRes s.rgoN cmd, pushA (.aRGO cmd chkErr) { s with rgoN := s.rgoN + 1 })

/-- `shellutil.run(cmd, chk_err)`. -/
def runE (w : World) (chkErr : Bool) (cmd : String) (s : St) : Int × St :=
  (w.runRes s.runN cmd, pushA (.aRun cmd chkErr) { s with runN := s.runN + 1 })

/-- `os.path.exists(p)`. -/
def existsE (w : World) (p : String) (s : St) : Bool × St :=
  (w.existsRes s.exN p, pushA (.aExistsQ p) { s with exN := s.exN + 1 })

/-- `os.path.isfile(p)`. -/
def isFileE (w : World) (p : String) (s : St) : Bool × St :=
  (w.isFileRes s.fileN p, pushA (.aIsFileQ p) { s with fileN := s.fileN + 1 })

/-- `os.path.getsize(p)`. -/
def sizeE (w : World) (p : String) (s : St) : Int × St :=
  (w.sizeRes s.sizeN p, pushA (.aGetSizeQ p) { s with sizeN := s.sizeN + 1 })

/-- `os.stat(p).st_mode`. -/
def modeE (w : World) (p : String) (s : St) : Nat × St :=
  (w.modeRes s.modeN p, pushA (.aStatQ p) { s with modeN := s.modeN + 1 })

/-- `os.open(p, O_CREAT | O_WRONLY | O_EXCL, S_IRUSR | S_IWUSR)`:
`true` if the open succeeded, `false` if it raised. -/
def openE (w : World) (p : String) (s : St) : Bool × St :=
  (w.openOk s.openN, pushA (.aOpen p) { s with openN := s.openN + 1 })

/-- `os.posix_fallocate(fd, 0, nbytes)`: `true` on success. -/
def fallocE (w : World) (nbytes : Int) (s : St) : Bool × St :=
  (w.fallocOk s.fallocN, pushA (.aFallocate 0 nbytes) { s with fallocN := s.fallocN + 1 })

def removeE (p : String) (s : St) : St := pushA (.aRemove p) s
def chmodE (p : String) (m : Nat) (s : St) : St := pushA (.aChmod p m) s
def sleepE (n : Nat) (s : St) : St := pushA (.aSleep n) s
def warnE (m : String) (s : St) : St := pushA (.aWarn m) s
def logErrE (m : String) (s : St) : St := pushA (.aLogErr m) s

/-! ## Substring testing (Python `in` / `str.find != -1`) -/

/-- `chPre n l`: `n` is a leading segment of `l` (executable). -/
def chPre : List Char → List Char → Bool
  | [], _ => true
  | _ :: _, [] => false
  | a :: as, b :: bs => a == b && chPre as bs

/-- `chSub n l`: `n` occurs as a contiguous segment of `l` (executable). -/
def chSub (needle : List Char) : List Char → Bool
  | [] => chPre needle []
  | c :: cs => chPre needle (c :: cs) || chSub needle cs

/-- Python `needle in hay` / `hay.find(needle) != -1`. -/
def strHas (hay needle : String) : Bool := chSub needle.data hay.data

/-! ## Command strings built by the handler -/

def DATADISK_SCSI_PATH : String := "/dev/disk/azure/scsi1"

/-- `"parted {0} print".format(device)`. -/
def probeCmd (device : String) : String := "parted " ++ device ++ " print"

/-- `"parted {0} --script mklabel gpt mkpart primary {1} 0% 100%".format(device, self.fs)`. -/
def mkpartCmd (device fs : String) : String :=
  "parted " ++ device ++ " --script mklabel gpt mkpart primary " ++ fs ++ " 0% 100%"

/-- `"mkfs.{0} -{2} {1}".format(self.fs, partition, force_option)` with
`force_option = 'f'` for xfs and `'F'` otherwise. -/
def mkfsCmd (fs partition : String) : String :=
  "mkfs." ++ fs ++ " -" ++ (if fs == "xfs" then "f" else "F") ++ " " ++ partition

def sfdiskCmd (device : String) : String := "sfdisk -R " ++ device

def blockdevCmd (device : String) : String := "blockdev --rereadpt " ++ device

/-- `shellutil.quote((filename,))`: shell-quotes the single file name. -/
def shQuote (s : String) : String := "'" ++ s ++ "'"

/-- `"umask 0077 && fallocate -l {0} {1}".format(nbytes, fn_sh)`. -/
def fallocateCmd (nbytes : Int) (fn_sh : String) : String :=
  "umask 0077 && fallocate -l " ++ toString nbytes ++ " " ++ fn_sh

/-- `dd_cmd.format(bs, count, fn_sh)` for
`dd_cmd = "umask 0077 && dd if=/dev/zero bs={0} count={1} conv=notrunc of={2}"`. -/
def ddCmd (bs count : Int) (fn_sh : String) : String :=
  "umask 0077 && dd if=/dev/zero bs=" ++ toString bs ++ " count=" ++ toString count ++
    " conv=notrunc of=" ++ fn_sh

/-! ## The handler's functions -/

/-- `DataDiskHandler.get_mount_string`. -/
def get_mount_string (fs : String) (mount_options : Option String)
    (partition mount_point : String) : String :=
  match mount_options with
  | some o => "mount -t " ++ fs ++ " -o " ++ o ++ " " ++ partition ++ " " ++ mount_point
  | none => "mount -t " ++ fs ++ " " ++ partition ++ " " ++ mount_point

/-- `DataDiskHandler.reread_partition_table`: `sfdisk -R`, falling back
to `blockdev --rereadpt` when sfdisk exits non-zero. -/
def reread_partition_table (w : World) (device : String) (s : St) : St :=
  let r := runE w false (sfdiskCmd device) s
  if r.1 != 0 then (runE w false (blockdevCmd device) r.2).2 else r.2

/-- The waiting loop
`while not os.path.exists(partition) and attempts > 0: sleep(5); attempts -= 1`
(the condition re-queries existence at every evaluation, including the
one where `attempts` has reached 0). -/
def waitPartition (w : World) (partition : String) : Nat → St → St
  | 0, s => (existsE w partition s).2
  | n + 1, s =>
    let b := existsE w partition s
    if b.1 then b.2 else waitPartition w partition n (sleepE 5 b.2)

/-- `DataDiskHandler.get_datadisk_devices`. -/
def get_datadisk_devices (w : World) : List String :=
  (w.listdir.filter (fun lun => !strHas lun "part")).map
    (fun lun => ((w.readlink (DATADISK_SCSI_PATH ++ "/" ++ lun)).splitOn "/").getLastD "")

/-- `DataDiskHandler.mount_data_disk`.  Returns the resolved mount point
or the raised `DataDiskError`, together with the final state. -/
def mount_data_disk (w : World) (mount_point : String) (device? : Option String)
    (s : St) : Except DataDiskError String × St :=
  match device? with
  | none => (.error ⟨"unable to detect disk topology"⟩, s)
  | some dev =>
    let device := "/dev/" ++ dev
    let partition := device ++ "1"
    let ml := rgoE w true "mount" s
    let existing := w.getMountPoint ml.1.2 device
    let s := pushA (.aGetMountPointQ device) ml.2
    match existing with
    | some e => (.ok e, s)
    | none =>
      -- fileutil.mkdir(mount_point, mode=0o755); OSError -> DataDiskError
      let s := pushA (.aMkdir mount_point 493) s
      if w.mkdirOk = false then
        let msg := "Failed to create mount point directory [" ++ mount_point ++ "]: "
          ++ w.mkdirErr
        (.error ⟨msg⟩, logErrE msg s)
      else
        let ret := rgoE w true (probeCmd device) s
        if ret.1.1 != 0 then
          (.error ⟨"Could not determine partition info for " ++ device ++ ": " ++ ret.1.2⟩,
            ret.2)
        else
          let mkfs_string := mkfsCmd w.conf_fs partition
          let s :=
            if strHas ret.1.2 "unrecognised" then
              -- empty disk: create a GPT label + one primary partition, format it
              (runE w true mkfs_string
                (runE w true (mkpartCmd device w.conf_fs) ret.2).2).2
            else
              -- "gpt" in output, or other existing partitioning: only
              -- logger.info calls happen in the source, no external action
              ret.2
          let mount_string := get_mount_string w.conf_fs w.conf_mountOptions
            partition mount_point
          let s := waitPartition w partition 5 s
          let fin := existsE w partition s
          if fin.1 = false then
            (.error ⟨"Partition was not created [" ++ partition ++ "]"⟩, fin.2)
          else
            let m1 := rgoE w false mount_string fin.2
            if m1.1.1 == 32 && strHas m1.1.2 "is already mounted" then
              (.ok mount_point,
                warnE ("Could not mount data disk: " ++ m1.1.2) m1.2)
            else if m1.1.1 != 0 then
              let s := warnE
                "Failed to mount data disk. Retry mounting after re-reading partition info."
                m1.2
              let s := reread_partition_table w device s
              let m2 := rgoE w false mount_string s
              if m2.1.1 != 0 then
                let s := warnE
                  ("Failed to mount data disk. Attempting to format and retry mount. ["
                    ++ m2.1.2 ++ "]") m2.2
                let s := (runE w true mkfs_string s).2
                let m3 := rgoE w true mount_string s
                if m3.1.1 != 0 then
                  (.error ⟨"Could not mount " ++ partition ++
                    " after syncing partition table: [" ++ toString m3.1.1 ++ "] " ++
                    m3.1.2⟩, m3.2)
                else (.ok mount_point, m3.2)
              else (.ok mount_point, m2.2)
            else (.ok mount_point, m1.2)

/-- `DataDiskHandler.activate_data_disk`: catches `DataDiskError`, logs
it and raises a telemetry event; never propagates the error. -/
def activate_data_disk (w : World) (device : String) (s : St) : St :=
  let mount_point := w.conf_mountDirectory ++ "/" ++ device -- os.path.join
  match mount_data_disk w mount_point (some device) s with
  | (.ok _, s) => s
  | (.error e, s) =>
    pushA (.aTelemetry "ActivateDataDisk" false e.msg)
      (logErrE ("Failed to mount data disk " ++ e.msg) s)

/-- `DataDiskHandler.run`: provision every enumerated device in turn. -/
def handler_run (w : World) (s : St) : St :=
  if w.conf_format then
    (get_datadisk_devices w).foldl (fun s d => activate_data_disk w d s) s
  else s

/-- `DataDiskHandler.check_existing_swap_file` (static).  The Python
`and` chain short-circuits, so the `isfile`/`getsize` queries happen
only while the previous conjuncts held.  `S_IRWXG | S_IRWXO = 0o77`;
for natural numbers `m & 0o77 = m % 64` and `m & ~0o77 = m - m % 64`. -/
def check_existing_swap_file (w : World) (swapfile swaplist : String) (size : Int)
    (s : St) : Bool × St :=
  if strHas swaplist swapfile then
    let isf := isFileE w swapfile s
    if isf.1 then
      let sz := sizeE w swapfile isf.2
      if sz.1 == size then
        let mode := modeE w swapfile sz.2
        if mode.1 % 64 != 0 then
          (true, chmodE swapfile (mode.1 - mode.1 % 64) mode.2)
        else (true, mode.2)
      else (false, sz.2)
    else (false, isf.2)
  else (false, s)

/-- The dd fallback tail of `mkfile`: full 64 MiB blocks, then the
remainder as a single block; `ret0` is the value the Python local `ret`
holds when the fallback is entered (`<< 8` is `* 256`). -/
def dd_fallback (w : World) (fn_sh : String) (nbytes ret0 : Int) (s : St) : Int × St :=
  let dd_maxbs : Int := 64 * 1024 ^ 2
  let blocks := nbytes / dd_maxbs
  let r1 :=
    if blocks > 0 then
      let r := runE w true (ddCmd dd_maxbs blocks fn_sh) s
      (r.1 * 256, r.2)
    else (ret0, s)
  let remains := nbytes % dd_maxbs
  let r2 :=
    if remains > 0 then
      let r := runE w true (ddCmd remains 1 fn_sh) r1.2
      (r1.1 + r.1, r.2)
    else r1
  if r2.1 == 0 then r2 else (r2.1, logErrE "dd unsuccessful" r2.2)

/-- `DataDiskHandler.mkfile`: size validation, unconditional removal of
an existing file, then the tiered allocation strategies. -/
def mkfile (w : World) (filename : String) (nbytes : Int) (s : St) :
    Except DataDiskError Int × St :=
  if nbytes ≤ 0 then
    (.error ⟨"Invalid swap size [" ++ toString nbytes ++ "]"⟩, s)
  else
    let isf := isFileE w filename s
    let s := if isf.1 then removeE filename isf.2 else isf.2
    let fn_sh := shQuote filename
    if (w.conf_fs == "xfs" || w.conf_fs == "ext4") = false then
      -- os.posix_fallocate on Python >= 3.3, inside try/except/finally
      let fast :=
        if w.pyGe33 then
          let op := openE w filename s
          if op.1 then
            let fa := fallocE w nbytes op.2
            (fa.1, pushA .aClose fa.2) -- finally: os.close(fd)
          else (false, op.2)
        else (false, s)
      if fast.1 then (.ok 0, fast.2)
      else
        let r := runE w true (fallocateCmd nbytes fn_sh) fast.2
        if r.1 == 0 then (.ok r.1, r.2)
        else
          let d := dd_fallback w fn_sh nbytes r.1 r.2
          (.ok d.1, d.2)
    else
      -- xfs / ext4: go straight to dd (ret = 0 before the fallback)
      let d := dd_fallback w fn_sh nbytes 0 s
      (.ok d.1, d.2)

/-- `DataDiskHandler.create_swap_space`. -/
def create_swap_space (w : World) (mount_point : String) (size_mb : Int) (s : St) :
    Except DataDiskError Unit × St :=
  let size_kb := size_mb * 1024
  let size := size_kb * 1024
  let swapfile := mount_point ++ "/swapfile" -- os.path.join
  let sw := rgoE w true "swapon -s" s
  let chk := check_existing_swap_file w swapfile sw.1.2 size sw.2
  if chk.1 then (.ok (), chk.2)
  else
    let isf := isFileE w swapfile chk.2
    let s :=
      if isf.1 then
        let sz := sizeE w swapfile isf.2
        if sz.1 != size then
          removeE swapfile (runE w false ("swapoff " ++ swapfile) sz.2).2
        else sz.2
      else isf.2
    let isf2 := isFileE w swapfile s
    let afterCreate : Except DataDiskError Unit × St :=
      if isf2.1 = false then
        match mkfile w swapfile (size_kb * 1024) isf2.2 with
        | (.error e, s) => (.error e, s)
        | (.ok _, s) => (.ok (), (runE w true ("mkswap " ++ swapfile) s).2)
      else (.ok (), isf2.2)
    match afterCreate with
    | (.error e, s) => (.error e, s)
    | (.ok _, s) =>
      let r := runE w true ("swapon " ++ swapfile) s
      if r.1 != 0 then (.error ⟨swapfile⟩, r.2)
      else (.ok (), r.2)

/-! ## Trace observations

Commands are classified by the fixed literal heads of the strings the
handler builds; the heads are pairwise distinguishable, and `run` /
`run_get_output` calls are distinguished by their `Action` constructor
(e.g. the only `shellutil.run` command starting with `"parted "` is the
mklabel/mkpart invocation; the probe goes through `run_get_output`). -/

def countA (p : Action → Bool) (tr : List Action) : Nat := tr.countP p

/-- the action is a `shellutil.run` of a command starting with `lit`. -/
def isRunPre (lit : String) (a : Action) : Bool :=
  match a with
  | .aRun c _ => chPre lit.data c.data
  | _ => false

/-- the action is a `shellutil.run_get_output` of a command starting with `lit`. -/
def isRGOPre (lit : String) (a : Action) : Bool :=
  match a with
  | .aRGO c _ => chPre lit.data c.data
  | _ => false

/-- partition-creation commands (`parted .. mklabel gpt mkpart ..`). -/
def isMkpartA : Action → Bool := isRunPre "parted "

/-- format commands (`mkfs.<fs> ..`). -/
def isMkfsA : Action → Bool := isRunPre "mkfs."

def isSfdiskA : Action → Bool := isRunPre "sfdisk"

def isBlockdevA : Action → Bool := isRunPre "blockdev"

/-- mount attempts (`mount -t ..`); the bare `mount` listing query does
not match. -/
def isMountA : Action → Bool := isRGOPre "mount -t "

def isDdA : Action → Bool := isRunPre "umask 0077 && dd"

def isFallocCmdA : Action → Bool := isRunPre "umask 0077 && fallocate"

def isSwaponA : Action → Bool := isRunPre "swapon "

def isMkswapA : Action → Bool := isRunPre "mkswap"

def isRunA (a : Action) : Bool := match a with | .aRun _ _ => true | _ => false

def isSleepA (a : Action) : Bool := match a with | .aSleep _ => true | _ => false

def isRemoveA (a : Action) : Bool := match a with | .aRemove _ => true | _ => false

def isOpenA (a : Action) : Bool := match a with | .aOpen _ => true | _ => false

def isPosixFallocA (a : Action) : Bool := match a with | .aFallocate _ _ => true | _ => false

def isLogErrA (a : Action) : Bool := match a with | .aLogErr _ => true | _ => false

def isWarnA (a : Action) : Bool := match a with | .aWarn _ => true | _ => false

def isChmodA (a : Action) : Bool := match a with | .aChmod _ _ => true | _ => false

/-! ## Derived indicators for the mount retry ladder -/

/-- The `os.path.exists` call counter after the waiting loop of
`mount_data_disk` runs with fuel `n` starting from counter `k`
(mirrors `waitPartition`, forgetting the trace). -/
def waitCount (w : World) (p : String) : Nat → Nat → Nat
  | 0, k => k + 1
  | n + 1, k => if w.existsRes k p then k + 1 else waitCount w p n (k + 1)

/-- Whether the final `os.path.exists(partition)` check of
`mount_data_disk` (line 156) sees the partition node. -/
def nodeFound (w : World) (p : String) : Bool := w.existsRes (waitCount w p 5 0) p

/-- The tolerated mount outcome: exit code 32 with output containing
`"is already mounted"`. -/
def tolerated32 (m : Int × String) : Bool :=
  m.1 == 32 && strHas m.2 "is already mounted"

/-- Whether `mount_data_disk` reaches the destructive last-resort step of
the retry ladder (the forced re-format before the third mount attempt):
the partition node was found, the first mount attempt (the third
`run_get_output` call) failed other than the tolerated exit-32 case, and
the re-read retry (the fourth `run_get_output` call) failed too. -/
def ladderHit (w : World) (mp dev : String) : Bool :=
  let partition := "/dev/" ++ dev ++ "1"
  let ms := get_mount_string w.conf_fs w.conf_mountOptions partition mp
  nodeFound w partition &&
    (!tolerated32 (w.rgoRes 2 ms) && (w.rgoRes 2 ms).1 != 0 && (w.rgoRes 3 ms).1 != 0)

/-! ## A model of the `dd` invocations (for the allocator's size contract)

`mkfile`'s fallback issues
`umask 0077 && dd if=/dev/zero bs=B count=C conv=notrunc of=F`.
Per the documented semantics of `dd`: reading from `/dev/zero` and
writing `C` blocks of `B` bytes to `F`, it creates `F` if absent,
`conv=notrunc` prevents truncation, and — since the command passes no
`seek=`/`oflag=append` — every write starts at offset 0.  So after a
sequence of successful invocations on a fresh file, the file holds
exactly `max` over the invocations of `B*C` zero bytes. -/

/-- Strip `sep` from the front of a list, if it is a leading segment. -/
def stripLead : List Char → List Char → Option (List Char)
  | [], l => some l
  | _ :: _, [] => none
  | a :: as, b :: bs => if a == b then stripLead as bs else none

/-- Split at the first occurrence of `sep`, returning the parts before
and after it. -/
def splitOnce (sep : List Char) : List Char → Option (List Char × List Char)
  | [] =>
    match stripLead sep [] with
    | some rest => some ([], rest)
    | none => none
  | c :: cs =>
    match stripLead sep (c :: cs) with
    | some rest => some ([], rest)
    | none =>
      match splitOnce sep cs with
      | some (pre, post) => some (c :: pre, post)
      | none => none

def digitsToNat : List Char → Nat → Option Nat
  | [], acc => some acc
  | c :: cs, acc =>
    if c.isDigit then digitsToNat cs (acc * 10 + (c.toNat - 48)) else none

/-- Recognise a `dd` command issued on `fn_sh` and extract `(bs, count)`. -/
def ddParse (fn_sh cmd : String) : Option (Int × Int) :=
  match splitOnce "umask 0077 && dd if=/dev/zero bs=".data cmd.data with
  | some ([], rest) =>
    match splitOnce " count=".data rest with
    | some (bsStr, rest2) =>
      match splitOnce " conv=notrunc of=".data rest2 with
      | some (cStr, fn) =>
        if fn == fn_sh.data then
          match digitsToNat bsStr 0, digitsToNat cStr 0 with
          | some bs, some c => some ((bs : Int), (c : Int))
          | _, _ => none
        else none
      | _ => none
    | _ => none
  | _ => none

/-- The `(bs, count)` arguments of the `dd` invocations on `fn_sh` found
in a trace, in order. -/
def ddWritesOf (fn_sh : String) (tr : List Action) : List (Int × Int) :=
  tr.filterMap (fun a =>
    match a with
    | .aRun c _ => ddParse fn_sh c
    | _ => none)

/-- Resulting size of a fresh file after the given successful `dd`
invocations (each writes `bs*count` bytes at offset 0, no truncation). -/
def ddResultSize (writes : List (Int × Int)) : Int :=
  writes.foldl (fun sz bc => max sz (bc.1 * bc.2)) 0

/-- The query/sleep action pattern the waiting loop leaves in the trace
when the partition node never appears: `n+1` existence queries with a
5-second sleep after each but the last. -/
def qsList (p : String) : Nat → List Action
  | 0 => [.aExistsQ p]
  | n + 1 => .aExistsQ p :: .aSleep 5 :: qsList p n

/-! ## Concrete worlds used by counterexamples and witnesses -/

/-- A benign world: everything succeeds, the disk probe output is empty. -/
def Wbase : World where
  conf_fs := "ext4"
  conf_mountOptions := none
  conf_mountDirectory := "/m"
  conf_format := true
  pyGe33 := true
  mkdirOk := true
  mkdirErr := "oserr"
  getMountPoint := fun _ _ => none
  rgoRes := fun _ _ => (0, "")
  runRes := fun _ _ => 0
  existsRes := fun _ _ => true
  isFileRes := fun _ _ => false
  sizeRes := fun _ _ => 0
  modeRes := fun _ _ => 0
  openOk := fun _ => true
  fallocOk := fun _ => true
  listdir := []
  readlink := fun s => s

/-- A GPT-classified disk whose mount attempts all fail: the probe (the
second `run_get_output`) answers `(0, "gpt")`, every mount attempt
answers `(1, "mfail")`. -/
def Wgpt : World :=
  { Wbase with
    rgoRes := fun n _ =>
      if n == 0 then (0, "") else if n == 1 then (0, "gpt") else (1, "mfail") }

/-- Like `Wgpt`, but the mount retry after the partition-table re-read
succeeds. -/
def WgptRetryOk : World :=
  { Wgpt with
    rgoRes := fun n _ =>
      if n == 0 then (0, "") else if n == 1 then (0, "gpt")
      else if n == 2 then (1, "mfail") else (0, "") }

/-- The probe fails: the second `run_get_output` answers `(1, "perr")`. -/
def WprobeFail : World :=
  { Wbase with
    rgoRes := fun n _ => if n == 1 then (1, "perr") else (0, "") }

/-- The raw device is already mounted at `/m/sdc`. -/
def Wmounted : World :=
  { Wbase with getMountPoint := fun _ _ => some "/m/sdc" }

/-- The first mount attempt answers `(32, "... is already mounted")`. -/
def Wrace32 : World :=
  { Wbase with
    rgoRes := fun n _ =>
      if n == 2 then (32, "/dev/sdc1 is already mounted on /m/sdc") else (0, "gpt") }

/-- The partition device node never appears. -/
def Wnonode : World :=
  { Wbase with
    rgoRes := fun n _ => if n == 1 then (0, "gpt") else (0, ""),
    existsRes := fun _ _ => false }

/-- xfs configuration, no pre-existing file, every command succeeds. -/
def Wxfs : World := { Wbase with conf_fs := "xfs" }

/-- A fast-allocation-safe filesystem (`ext3`) on Python < 3.3, so the
OS-level fast-allocation step is unavailable. -/
def Wext3old : World := { Wbase with conf_fs := "ext3", pyGe33 := false }

/-- A reusable swap file: `swapon -s` lists `/m/swapfile`, the file
exists with exactly 1 MiB, mode `0o644`. -/
def Wswap : World :=
  { Wbase with
    rgoRes := fun n _ =>
      if n == 0 then (0, "Filename  Type  Size\n/m/swapfile  file  1024") else (0, ""),
    isFileRes := fun _ _ => true,
    sizeRes := fun _ _ => 1048576,
    modeRes := fun _ _ => 420 }

/-! ### Reduction lemmas for the command classifiers -/

theorem strData_append (a b : String) : (a ++ b).data = a.data ++ b.data := by
  cases a; cases b; rfl

@[simp] theorem chPre_parted_mkpart (d fs : String) :
    chPre ['p', 'a', 'r', 't', 'e', 'd', ' '] (mkpartCmd d fs).data = true := rfl

@[simp] theorem chPre_parted_mkfs (fs p : String) :
    chPre ['p', 'a', 'r', 't', 'e', 'd', ' '] (mkfsCmd fs p).data = false := rfl

@[simp] theorem chPre_parted_sfdisk (d : String) :
    chPre ['p', 'a', 'r', 't', 'e', 'd', ' '] (sfdiskCmd d).data = false := rfl

@[simp] theorem chPre_parted_blockdev (d : String) :
    chPre ['p', 'a', 'r', 't', 'e', 'd', ' '] (blockdevCmd d).data = false := rfl

@[simp] theorem chPre_mkfs_mkpart (d fs : String) :
    chPre ['m', 'k', 'f', 's', '.'] (mkpartCmd d fs).data = false := rfl

@[simp] theorem chPre_mkfs_mkfs (fs p : String) :
    chPre ['m', 'k', 'f', 's', '.'] (mkfsCmd fs p).data = true := rfl

@[simp] theorem chPre_mkfs_sfdisk (d : String) :
    chPre ['m', 'k', 'f', 's', '.'] (sfdiskCmd d).data = false := rfl

@[simp] theorem chPre_mkfs_blockdev (d : String) :
    chPre ['m', 'k', 'f', 's', '.'] (blockdevCmd d).data = false := rfl

@[simp] theorem chPre_sfdisk_mkpart (d fs : String) :
    chPre ['s', 'f', 'd', 'i', 's', 'k'] (mkpartCmd d fs).data = false := rfl

@[simp] theorem chPre_sfdisk_mkfs (fs p : String) :
    chPre ['s', 'f', 'd', 'i', 's', 'k'] (mkfsCmd fs p).data = false := rfl

@[simp] theorem chPre_sfdisk_sfdisk (d : String) :
    chPre ['s', 'f', 'd', 'i', 's', 'k'] (sfdiskCmd d).data = true := rfl

@[simp] theorem chPre_sfdisk_blockdev (d : String) :
    chPre ['s', 'f', 'd', 'i', 's', 'k'] (blockdevCmd d).data = false := rfl

@[simp] theorem chPre_blockdev_mkpart (d fs : String) :
    chPre ['b', 'l', 'o', 'c', 'k', 'd', 'e', 'v'] (mkpartCmd d fs).data = false := rfl

@[simp] theorem chPre_blockdev_mkfs (fs p : String) :
    chPre ['b', 'l', 'o', 'c', 'k', 'd', 'e', 'v'] (mkfsCmd fs p).data = false := rfl

@[simp] theorem chPre_blockdev_sfdisk (d : String) :
    chPre ['b', 'l', 'o', 'c', 'k', 'd', 'e', 'v'] (sfdiskCmd d).data = false := rfl

@[simp] theorem chPre_blockdev_blockdev (d : String) :
    chPre ['b', 'l', 'o', 'c', 'k', 'd', 'e', 'v'] (blockdevCmd d).data = true := rfl

@[simp] theorem chPre_mount_mount_string (fs : String) (o : Option String) (p m : String) :
    chPre ['m', 'o', 'u', 'n', 't', ' ', '-', 't', ' '] (get_mount_string fs o p m).data = true := by
  cases o <;> rfl

@[simp] theorem chPre_mount_bare_mount :
    chPre ['m', 'o', 'u', 'n', 't', ' ', '-', 't', ' '] ['m', 'o', 'u', 'n', 't']
      = false := rfl

@[simp] theorem chPre_mount_probe (d : String) :
    chPre ['m', 'o', 'u', 'n', 't', ' ', '-', 't', ' '] (probeCmd d).data = false := rfl

@[simp] theorem chPre_mount_swapon_s :
    chPre ['m', 'o', 'u', 'n', 't', ' ', '-', 't', ' ']
      ['s', 'w', 'a', 'p', 'o', 'n', ' ', '-', 's'] = false := rfl

@[simp] theorem chPre_dd_ddCmd (bs c : Int) (f : String) :
    chPre ['u', 'm', 'a', 's', 'k', ' ', '0', '0', '7', '7', ' ', '&', '&', ' ', 'd', 'd']
      (ddCmd bs c f).data = true := rfl

@[simp] theorem chPre_dd_fallocateCmd (n : Int) (f : String) :
    chPre ['u', 'm', 'a', 's', 'k', ' ', '0', '0', '7', '7', ' ', '&', '&', ' ', 'd', 'd']
      (fallocateCmd n f).data = false := rfl

@[simp] theorem chPre_fa_ddCmd (bs c : Int) (f : String) :
    chPre ['u', 'm', 'a', 's', 'k', ' ', '0', '0', '7', '7', ' ', '&', '&', ' ',
      'f', 'a', 'l', 'l', 'o', 'c', 'a', 't', 'e'] (ddCmd bs c f).data = false := rfl

@[simp] theorem chPre_fa_fallocateCmd (n : Int) (f : String) :
    chPre ['u', 'm', 'a', 's', 'k', ' ', '0', '0', '7', '7', ' ', '&', '&', ' ',
      'f', 'a', 'l', 'l', 'o', 'c', 'a', 't', 'e'] (fallocateCmd n f).data = true := rfl

/-! ### Substring lemmas (for "the message includes ..." conjuncts) -/

theorem chPre_append_self (l r : List Char) : chPre l (l ++ r) = true := by
  induction l with
  | nil => rfl
  | cons a as ih => simp [chPre, ih]

theorem chPre_self (l : List Char) : chPre l l = true := by
  have := chPre_append_self l []
  simpa using this

theorem chSub_of_chPre {n l : List Char} (h : chPre n l = true) : chSub n l = true := by
  cases l with
  | nil => cases n with
    | nil => rfl
    | cons a as => simp [chPre] at h
  | cons c cs => simp [chSub, h]

theorem chSub_self (l : List Char) : chSub l l = true :=
  chSub_of_chPre (chPre_self l)

theorem chSub_append_left {n y : List Char} (x : List Char) (h : chSub n y = true) :
    chSub n (x ++ y) = true := by
  induction x with
  | nil => simpa using h
  | cons a as ih => simp [chSub, ih]

theorem chPre_append_of_chPre {n l : List Char} (r : List Char) (h : chPre n l = true) :
    chPre n (l ++ r) = true := by
  induction n generalizing l with
  | nil => rfl
  | cons a as ih =>
    cases l with
    | nil => simp [chPre] at h
    | cons b bs =>
      simp [chPre] at h ⊢
      exact ⟨h.1, ih h.2⟩

theorem chSub_nil_needle (l : List Char) : chSub [] l = true := by
  cases l <;> simp [chSub, chPre]

theorem chSub_append_right {n x : List Char} (y : List Char) (h : chSub n x = true) :
    chSub n (x ++ y) = true := by
  induction x with
  | nil =>
    cases n with
    | nil => simpa using chSub_nil_needle y
    | cons a as => simp [chSub, chPre] at h
  | cons a as ih =>
    simp only [chSub, Bool.or_eq_true] at h
    rcases h with h | h
    · simp only [List.cons_append, chSub, Bool.or_eq_true]
      exact Or.inl (chPre_append_of_chPre y h)
    · simp only [List.cons_append, chSub, Bool.or_eq_true]
      exact Or.inr (ih h)

theorem strHas_append_right (a b : String) : strHas (a ++ b) b = true := by
  unfold strHas
  rw [strData_append]
  exact chSub_append_left a.data (chSub_self b.data)

theorem strHas_append_mid (a b c : String) : strHas (a ++ b ++ c) b = true := by
  unfold strHas
  rw [strData_append, strData_append]
  exact chSub_append_right c.data (chSub_append_left a.data (chSub_self b.data))

theorem strHas_mid4 (a b c d : String) : strHas (a ++ b ++ c ++ d) b = true := by
  unfold strHas
  rw [strData_append, strData_append, strData_append]
  exact chSub_append_right d.data
    (chSub_append_right c.data (chSub_append_left a.data (chSub_self b.data)))

/-! ## Claim C3 -/

/-- C3: when the partition-probe command exits non-zero,
`mount_data_disk` fails with the probe error, whose message includes the
device and the tool output; the trace stops at the probe (no
partitioning, formatting, or mount command follows), and
`activate_data_disk` absorbs the error into a log line and a telemetry
event instead of propagating it, so only this device's processing is
aborted.  (In the source the raised class is `DataDiskError`; the spec's
taxonomy names this probe-failure case `ProbeError`.) -/
theorem probe_failure_aborts_device_only (w : World) (dev out mp : String) (r : Int)
    (hmp : w.getMountPoint (w.rgoRes 0 "mount").2 ("/dev/" ++ dev) = none)
    (hmk : w.mkdirOk = true)
    (hpr : w.rgoRes 1 (probeCmd ("/dev/" ++ dev)) = (r, out))
    (hr : r ≠ 0) :
    (mount_data_disk w mp (some dev) St.init =
      (.error ⟨"Could not determine partition info for " ++ ("/dev/" ++ dev) ++ ": "
          ++ out⟩,
        { St.init with
            rgoN := 2
            trace := [.aRGO "mount" true, .aGetMountPointQ ("/dev/" ++ dev),
              .aMkdir mp 493, .aRGO (probeCmd ("/dev/" ++ dev)) true] }))
    ∧ strHas ("Could not determine partition info for " ++ ("/dev/" ++ dev) ++ ": "
        ++ out) ("/dev/" ++ dev) = true
    ∧ strHas ("Could not determine partition info for " ++ ("/dev/" ++ dev) ++ ": "
        ++ out) out = true
    ∧ activate_data_disk w dev St.init =
        { St.init with
            rgoN := 2
            trace := [.aRGO "mount" true, .aGetMountPointQ ("/dev/" ++ dev),
              .aMkdir (w.conf_mountDirectory ++ "/" ++ dev) 493,
              .aRGO (probeCmd ("/dev/" ++ dev)) true,
              .aLogErr ("Failed to mount data disk " ++
                ("Could not determine partition info for " ++ ("/dev/" ++ dev) ++ ": "
                  ++ out)),
              .aTelemetry "ActivateDataDisk" false
                ("Could not determine partition info for " ++ ("/dev/" ++ dev) ++ ": "
                  ++ out)] } := by
  refine ⟨?_, ?_, ?_, ?_⟩
  · simp [mount_data_disk, rgoE, pushA, St.init, hmp, hmk, hpr, hr]
  · exact strHas_mid4 "Could not determine partition info for " ("/dev/" ++ dev) ": " out
  · exact strHas_append_right _ out
  · simp [activate_data_disk, mount_data_disk, rgoE, pushA, logErrE, St.init,
      hmp, hmk, hpr, hr]

theorem probe_failure_aborts_device_only_witness :
    (WprobeFail.getMountPoint (WprobeFail.rgoRes 0 "mount").2 ("/dev/" ++ "sdc") = none
      ∧ WprobeFail.mkdirOk = true
      ∧ WprobeFail.rgoRes 1 (probeCmd ("/dev/" ++ "sdc")) = (1, "perr")
      ∧ (1 : Int) ≠ 0)
    ∧ (mount_data_disk WprobeFail "/m/sdc" (some "sdc") St.init =
        (.error ⟨"Could not determine partition info for " ++ ("/dev/" ++ "sdc") ++ ": "
            ++ "perr"⟩,
          { St.init with
              rgoN := 2
              trace := [.aRGO "mount" true, .aGetMountPointQ ("/dev/" ++ "sdc"),
                .aMkdir "/m/sdc" 493, .aRGO (probeCmd ("/dev/" ++ "sdc")) true] }))
      ∧ strHas ("Could not determine partition info for " ++ ("/dev/" ++ "sdc") ++ ": "
          ++ "perr") ("/dev/" ++ "sdc") = true
      ∧ strHas ("Could not determine partition info for " ++ ("/dev/" ++ "sdc") ++ ": "
          ++ "perr") "perr" = true
      ∧ activate_data_disk WprobeFail "sdc" St.init =
          { St.init with
              rgoN := 2
              trace := [.aRGO "mount" true, .aGetMountPointQ ("/dev/" ++ "sdc"),
                .aMkdir (WprobeFail.conf_mountDirectory ++ "/" ++ "sdc") 493,
                .aRGO (probeCmd ("/dev/" ++ "sdc")) true,
                .aLogErr ("Failed to mount data disk " ++
                  ("Could not determine partition info for " ++ ("/dev/" ++ "sdc") ++ ": "
                    ++ "perr")),
                .aTelemetry "ActivateDataDisk" false
                  ("Could not determine partition info for " ++ ("/dev/" ++ "sdc") ++ ": "
                    ++ "perr")] } :=
  ⟨⟨rfl, rfl, rfl, by decide⟩,
    probe_failure_aborts_device_only WprobeFail "sdc" "perr" "/m/sdc" 1 rfl rfl rfl
      (by decide)⟩

/-- When the partition node is reported present at the first check, the
waiting loop performs exactly one existence query and no sleep. -/
theorem waitPartition_found (w : World) (p : String) (n : Nat) (s : St)
    (h : w.existsRes s.exN p = true) :
    waitPartition w p n s = (existsE w p s).2 := by
  cases n with
  | zero => rfl
  | succ m => simp [waitPartition, existsE, h]

/-! ## Claim C6 -/

/-- C6: when the first mount attempt exits with code 32 and its output
contains `"is already mounted"`, `mount_data_disk` treats the mount as a
success: it logs a warning (not an error), performs no partition-table
re-read, no format and no further mount attempt, and returns the mount
point.  The final state is given exactly: after the first mount attempt
the only action is the warning. -/
theorem mount_exit32_race_tolerated (w : World) (dev mp out o : String)
    (hmp : w.getMountPoint (w.rgoRes 0 "mount").2 ("/dev/" ++ dev) = none)
    (hmk : w.mkdirOk = true)
    (hpr : w.rgoRes 1 (probeCmd ("/dev/" ++ dev)) = (0, out))
    (hex : ∀ n, w.existsRes n ("/dev/" ++ dev ++ "1") = true)
    (hm1 : w.rgoRes 2 (get_mount_string w.conf_fs w.conf_mountOptions
        ("/dev/" ++ dev ++ "1") mp) = (32, o))
    (ho : strHas o "is already mounted" = true) :
    mount_data_disk w mp (some dev) St.init =
      (.ok mp,
        { St.init with
            rgoN := 3
            runN := if strHas out "unrecognised" = true then 2 else 0
            exN := 2
            trace := [.aRGO "mount" true, .aGetMountPointQ ("/dev/" ++ dev),
                .aMkdir mp 493, .aRGO (probeCmd ("/dev/" ++ dev)) true]
              ++ (if strHas out "unrecognised" = true then
                    [.aRun (mkpartCmd ("/dev/" ++ dev) w.conf_fs) true,
                     .aRun (mkfsCmd w.conf_fs ("/dev/" ++ dev ++ "1")) true]
                  else [])
              ++ [.aExistsQ ("/dev/" ++ dev ++ "1"), .aExistsQ ("/dev/" ++ dev ++ "1"),
                  .aRGO (get_mount_string w.conf_fs w.conf_mountOptions
                    ("/dev/" ++ dev ++ "1") mp) false,
                  .aWarn ("Could not mount data disk: " ++ o)] }) := by
  rcases Bool.eq_false_or_eq_true (strHas out "unrecognised") with hu | hu <;>
    simp [mount_data_disk, rgoE, runE, existsE, pushA, warnE, St.init, hmp, hmk, hpr,
      hm1, ho, hu, hex, waitPartition_found]

theorem mount_exit32_race_tolerated_witness :
    (Wrace32.getMountPoint (Wrace32.rgoRes 0 "mount").2 ("/dev/" ++ "sdc") = none
      ∧ Wrace32.mkdirOk = true
      ∧ Wrace32.rgoRes 1 (probeCmd ("/dev/" ++ "sdc")) = (0, "gpt")
      ∧ Wrace32.rgoRes 2 (get_mount_string Wrace32.conf_fs Wrace32.conf_mountOptions
          ("/dev/" ++ "sdc" ++ "1") "/m/sdc") =
            (32, "/dev/sdc1 is already mounted on /m/sdc")
      ∧ strHas "/dev/sdc1 is already mounted on /m/sdc" "is already mounted" = true)
    ∧ mount_data_disk Wrace32 "/m/sdc" (some "sdc") St.init =
        (.ok "/m/sdc",
          { St.init with
              rgoN := 3
              runN := 0
              exN := 2
              trace := [.aRGO "mount" true, .aGetMountPointQ ("/dev/" ++ "sdc"),
                  .aMkdir "/m/sdc" 493, .aRGO (probeCmd ("/dev/" ++ "sdc")) true,
                  .aExistsQ ("/dev/" ++ "sdc" ++ "1"), .aExistsQ ("/dev/" ++ "sdc" ++ "1"),
                  .aRGO (get_mount_string Wrace32.conf_fs Wrace32.conf_mountOptions
                    ("/dev/" ++ "sdc" ++ "1") "/m/sdc") false,
                  .aWarn ("Could not mount data disk: "
                    ++ "/dev/sdc1 is already mounted on /m/sdc")] }) :=
  ⟨⟨rfl, rfl, rfl, rfl, by decide⟩,
    mount_exit32_race_tolerated Wrace32 "sdc" "/m/sdc" "gpt"
      "/dev/sdc1 is already mounted on /m/sdc" rfl rfl rfl (fun _ => rfl) rfl
      (by decide)⟩

/-- When the partition node never appears, the waiting loop with fuel
`n` performs `n+1` existence queries and `n` sleeps. -/
theorem waitPartition_never (w : World) (p : String) (n : Nat) (s : St)
    (h : ∀ k, w.existsRes k p = false) :
    waitPartition w p n s =
      { s with exN := s.exN + (n + 1), trace := s.trace ++ qsList p n } := by
  induction n generalizing s with
  | zero => simp [waitPartition, existsE, pushA, qsList, h]
  | succ m ih =>
    simp only [waitPartition, existsE, h, Bool.false_eq_true, if_false, sleepE, pushA]
    rw [ih]
    simp [qsList, St.mk.injEq, List.append_assoc]
    omega

/-! ## Claim C7 -/

/-- C7: if the partition device node never appears, `mount_data_disk`
polls its existence with 5-second sleeps between attempts, then fails
with the `DataDiskError` "Partition was not created"; exactly 5 sleeps
happen and no mount command is ever attempted. -/
theorem mount_partition_node_never_appears (w : World) (dev mp out : String)
    (hmp : w.getMountPoint (w.rgoRes 0 "mount").2 ("/dev/" ++ dev) = none)
    (hmk : w.mkdirOk = true)
    (hpr : w.rgoRes 1 (probeCmd ("/dev/" ++ dev)) = (0, out))
    (hex : ∀ n, w.existsRes n ("/dev/" ++ dev ++ "1") = false) :
    (mount_data_disk w mp (some dev) St.init =
      (.error ⟨"Partition was not created [" ++ ("/dev/" ++ dev ++ "1") ++ "]"⟩,
        { St.init with
            rgoN := 2
            runN := if strHas out "unrecognised" = true then 2 else 0
            exN := 7
            trace := [.aRGO "mount" true, .aGetMountPointQ ("/dev/" ++ dev),
                .aMkdir mp 493, .aRGO (probeCmd ("/dev/" ++ dev)) true]
              ++ (if strHas out "unrecognised" = true then
                    [.aRun (mkpartCmd ("/dev/" ++ dev) w.conf_fs) true,
                     .aRun (mkfsCmd w.conf_fs ("/dev/" ++ dev ++ "1")) true]
                  else [])
              ++ (qsList ("/dev/" ++ dev ++ "1") 5
                  ++ [.aExistsQ ("/dev/" ++ dev ++ "1")]) }))
    ∧ countA isMountA (mount_data_disk w mp (some dev) St.init).2.trace = 0
    ∧ countA isSleepA (mount_data_disk w mp (some dev) St.init).2.trace = 5 := by
  rcases Bool.eq_false_or_eq_true (strHas out "unrecognised") with hu | hu <;>
    refine ⟨?_, ?_, ?_⟩ <;>
      simp [mount_data_disk, rgoE, runE, existsE, pushA, St.init, hmp, hmk, hpr, hu,
        hex, waitPartition_never, qsList, countA, isMountA, isSleepA, isRGOPre]

theorem mount_partition_node_never_appears_witness :
    (Wnonode.getMountPoint (Wnonode.rgoRes 0 "mount").2 ("/dev/" ++ "sdc") = none
      ∧ Wnonode.mkdirOk = true
      ∧ Wnonode.rgoRes 1 (probeCmd ("/dev/" ++ "sdc")) = (0, "gpt"))
    ∧ (mount_data_disk Wnonode "/m/sdc" (some "sdc") St.init =
        (.error ⟨"Partition was not created [" ++ ("/dev/" ++ "sdc" ++ "1") ++ "]"⟩,
          { St.init with
              rgoN := 2
              runN := 0
              exN := 7
              trace := [.aRGO "mount" true, .aGetMountPointQ ("/dev/" ++ "sdc"),
                  .aMkdir "/m/sdc" 493, .aRGO (probeCmd ("/dev/" ++ "sdc")) true]
                ++ (qsList ("/dev/" ++ "sdc" ++ "1") 5
                    ++ [.aExistsQ ("/dev/" ++ "sdc" ++ "1")]) }))
      ∧ countA isMountA (mount_data_disk Wnonode "/m/sdc" (some "sdc") St.init).2.trace = 0
      ∧ countA isSleepA (mount_data_disk Wnonode "/m/sdc" (some "sdc") St.init).2.trace
          = 5 :=
  ⟨⟨rfl, rfl, rfl⟩,
    mount_partition_node_never_appears Wnonode "sdc" "/m/sdc" "gpt" rfl rfl rfl
      (fun _ => rfl)⟩

/-! ### Counting and if-then-else distribution helpers -/

@[simp] theorem countA_nil (p : Action → Bool) : countA p [] = 0 := rfl

@[simp] theorem countA_append (p : Action → Bool) (l1 l2 : List Action) :
    countA p (l1 ++ l2) = countA p l1 + countA p l2 := List.countP_append p l1 l2

@[simp] theorem countA_cons (p : Action → Bool) (a : Action) (l : List Action) :
    countA p (a :: l) = (if p a then 1 else 0) + countA p l := by
  simp [countA, List.countP_cons]
  omega

@[simp] theorem ite_snd_trace {α : Type} (c : Prop) [Decidable c] (a b : α × St) :
    (if c then a else b).2.trace = if c then a.2.trace else b.2.trace :=
  apply_ite (fun x : α × St => x.2.trace) c a b

@[simp] theorem countA_ite (p : Action → Bool) (c : Prop) [Decidable c]
    (l1 l2 : List Action) :
    countA p (if c then l1 else l2) = if c then countA p l1 else countA p l2 :=
  apply_ite (countA p) c l1 l2

@[simp] theorem filter_ite (p : Action → Bool) (c : Prop) [Decidable c]
    (l1 l2 : List Action) :
    List.filter p (if c then l1 else l2)
      = if c then List.filter p l1 else List.filter p l2 :=
  apply_ite (List.filter p) c l1 l2

@[simp] theorem head?_ite {α : Type} (c : Prop) [Decidable c] (l1 l2 : List α) :
    (if c then l1 else l2).head? = if c then l1.head? else l2.head? :=
  apply_ite List.head? c l1 l2

/-! ## Claim C8 -/

/-- C8 counterexample: with the fast-allocation-unsafe filesystem type
`xfs` configured and an allocation of 1 > 0 bytes, the OS-level fast
allocation step is skipped and yet `mkfile` never attempts the external
fast-allocation command — the sequential `dd` fallback runs directly.
This refutes the claim that the external command is attempted whenever
the OS-level step does not succeed, "including when it is skipped for a
fast-allocation-unsafe filesystem type". -/
theorem mkfile_xfs_no_fallocate_cmd_cex :
    Wxfs.conf_fs = "xfs" ∧ (0 : Int) < 1
    ∧ countA isFallocCmdA (mkfile Wxfs "/m/swapfile" 1 St.init).2.trace = 0
    ∧ countA isOpenA (mkfile Wxfs "/m/swapfile" 1 St.init).2.trace = 0
    ∧ countA isPosixFallocA (mkfile Wxfs "/m/swapfile" 1 St.init).2.trace = 0
    ∧ 1 ≤ countA isDdA (mkfile Wxfs "/m/swapfile" 1 St.init).2.trace := by
  decide

/-- C8 (amended): for every `nbytes > 0`: if the configured filesystem
is not one of the two fast-allocation-unsafe types (`xfs`, `ext4`) and
the OS-level fast-allocation step does not succeed (the facility is
unavailable before Python 3.3, the exclusive `os.open` fails, or
`os.posix_fallocate` fails), then the external fast-allocation command
`umask 0077 && fallocate -l <nbytes> <file>` (restrictive file-mode
mask) is attempted exactly once, before any sequential zero-fill `dd`
invocation, and its success ends the procedure with result 0.  If the
filesystem is one of the two unsafe types, both fast strategies are
skipped entirely and the `dd` fallback runs directly. -/
theorem mkfile_fast_allocation_policy (w : World) (fn : String) (nbytes : Int)
    (h : 0 < nbytes) :
    ((w.conf_fs == "xfs" || w.conf_fs == "ext4") = true →
      countA isFallocCmdA (mkfile w fn nbytes St.init).2.trace = 0
      ∧ countA isOpenA (mkfile w fn nbytes St.init).2.trace = 0
      ∧ countA isPosixFallocA (mkfile w fn nbytes St.init).2.trace = 0
      ∧ 1 ≤ countA isDdA (mkfile w fn nbytes St.init).2.trace)
    ∧ ((w.conf_fs == "xfs" || w.conf_fs == "ext4") = false →
        (w.pyGe33 && w.openOk 0 && w.fallocOk 0) = false →
        countA isFallocCmdA (mkfile w fn nbytes St.init).2.trace = 1
        ∧ ((mkfile w fn nbytes St.init).2.trace.filter
              (fun a => isFallocCmdA a || isDdA a)).head?
            = some (.aRun (fallocateCmd nbytes (shQuote fn)) true)
        ∧ (w.runRes 0 (fallocateCmd nbytes (shQuote fn)) = 0 →
            countA isDdA (mkfile w fn nbytes St.init).2.trace = 0
            ∧ (mkfile w fn nbytes St.init).1 = .ok 0)) := by
  have hn : ¬ nbytes ≤ 0 := not_le.mpr h
  refine ⟨fun hu => ?_, fun hu hfast => ?_⟩
  · rcases Bool.eq_false_or_eq_true (w.isFileRes 0 fn) with hf | hf <;>
      simp [mkfile, dd_fallback, runE, isFileE, removeE, pushA, logErrE, St.init,
        hn, hu, hf, isFallocCmdA, isOpenA, isPosixFallocA, isDdA, isRunPre,
        isRemoveA, isLogErrA] <;>
      split_ifs <;> omega
  · rcases Bool.eq_false_or_eq_true (w.isFileRes 0 fn) with hf | hf <;>
    rcases Bool.eq_false_or_eq_true w.pyGe33 with hp | hp <;>
    rcases Bool.eq_false_or_eq_true (w.openOk 0) with ho | ho <;>
    rcases Bool.eq_false_or_eq_true (w.fallocOk 0) with hfo | hfo <;>
      simp [hp, ho, hfo] at hfast <;>
    · constructor
      · simp [mkfile, dd_fallback, runE, isFileE, removeE, openE, fallocE, pushA,
          logErrE, St.init, hn, hu, hf, hp, ho, hfo, isFallocCmdA, isOpenA,
          isPosixFallocA, isDdA, isRunPre, isRemoveA, isLogErrA, isChmodA]
      constructor
      · simp [mkfile, dd_fallback, runE, isFileE, removeE, openE, fallocE, pushA,
          logErrE, St.init, hn, hu, hf, hp, ho, hfo, isFallocCmdA, isOpenA,
          isPosixFallocA, isDdA, isRunPre, List.filter]
      · intro h0
        simp [mkfile, dd_fallback, runE, isFileE, removeE, openE, fallocE, pushA,
          logErrE, St.init, hn, hu, hf, hp, ho, hfo, h0, isFallocCmdA, isOpenA,
          isPosixFallocA, isDdA, isRunPre]

theorem mkfile_fast_allocation_policy_witness :
    (0 : Int) < 1
    ∧ (((Wext3old.conf_fs == "xfs" || Wext3old.conf_fs == "ext4") = true →
        countA isFallocCmdA (mkfile Wext3old "/m/swapfile" 1 St.init).2.trace = 0
        ∧ countA isOpenA (mkfile Wext3old "/m/swapfile" 1 St.init).2.trace = 0
        ∧ countA isPosixFallocA (mkfile Wext3old "/m/swapfile" 1 St.init).2.trace = 0
        ∧ 1 ≤ countA isDdA (mkfile Wext3old "/m/swapfile" 1 St.init).2.trace)
      ∧ ((Wext3old.conf_fs == "xfs" || Wext3old.conf_fs == "ext4") = false →
          (Wext3old.pyGe33 && Wext3old.openOk 0 && Wext3old.fallocOk 0) = false →
          countA isFallocCmdA (mkfile Wext3old "/m/swapfile" 1 St.init).2.trace = 1
          ∧ ((mkfile Wext3old "/m/swapfile" 1 St.init).2.trace.filter
                (fun a => isFallocCmdA a || isDdA a)).head?
              = some (.aRun (fallocateCmd 1 (shQuote "/m/swapfile")) true)
          ∧ (Wext3old.runRes 0 (fallocateCmd 1 (shQuote "/m/swapfile")) = 0 →
              countA isDdA (mkfile Wext3old "/m/swapfile" 1 St.init).2.trace = 0
              ∧ (mkfile Wext3old "/m/swapfile" 1 St.init).1 = .ok 0))) :=
  ⟨by decide, mkfile_fast_allocation_policy Wext3old "/m/swapfile" 1 (by decide)⟩

@[simp] theorem ite_trace (c : Prop) [Decidable c] (a b : St) :
    (if c then a else b).trace = if c then a.trace else b.trace :=
  apply_ite St.trace c a b

@[simp] theorem ite_rgoN (c : Prop) [Decidable c] (a b : St) :
    (if c then a else b).rgoN = if c then a.rgoN else b.rgoN :=
  apply_ite St.rgoN c a b

@[simp] theorem ite_runN (c : Prop) [Decidable c] (a b : St) :
    (if c then a else b).runN = if c then a.runN else b.runN :=
  apply_ite St.runN c a b

@[simp] theorem ite_exN (c : Prop) [Decidable c] (a b : St) :
    (if c then a else b).exN = if c then a.exN else b.exN :=
  apply_ite St.exN c a b

/-- Full characterisation of the waiting loop for an arbitrary
existence oracle: it returns the input state with the exists-counter
advanced to `waitCount` and some queries/sleeps appended to the trace. -/
theorem waitPartition_split (w : World) (p : String) (n : Nat) (s : St) :
    ∃ t, waitPartition w p n s =
        { s with exN := waitCount w p n s.exN, trace := s.trace ++ t }
      ∧ ∀ a ∈ t, a = Action.aExistsQ p ∨ a = Action.aSleep 5 := by
  induction n generalizing s with
  | zero =>
    refine ⟨[Action.aExistsQ p], ?_, by simp⟩
    simp [waitPartition, existsE, pushA, waitCount]
  | succ m ih =>
    by_cases h : w.existsRes s.exN p = true
    · refine ⟨[Action.aExistsQ p], ?_, by simp⟩
      simp [waitPartition, existsE, pushA, waitCount, h]
    · have hf : w.existsRes s.exN p = false := by simpa using h
      obtain ⟨t, hw, hmem⟩ := ih (sleepE 5 (existsE w p s).2)
      refine ⟨Action.aExistsQ p :: Action.aSleep 5 :: t, ?_, ?_⟩
      · rw [show waitPartition w p (m + 1) s
              = waitPartition w p m (sleepE 5 (existsE w p s).2) from by
            simp [waitPartition, existsE, hf]]
        rw [hw]
        simp [existsE, sleepE, pushA, waitCount, hf]
      · intro a ha
        rcases List.mem_cons.mp ha with ha | ha
        · exact Or.inl ha
        rcases List.mem_cons.mp ha with ha | ha
        · exact Or.inr ha
        · exact hmem a ha

theorem waitPartition_rgoN (w : World) (p : String) (n : Nat) (s : St) :
    (waitPartition w p n s).rgoN = s.rgoN := by
  obtain ⟨t, hw, -⟩ := waitPartition_split w p n s
  rw [hw]

theorem waitPartition_runN (w : World) (p : String) (n : Nat) (s : St) :
    (waitPartition w p n s).runN = s.runN := by
  obtain ⟨t, hw, -⟩ := waitPartition_split w p n s
  rw [hw]

theorem waitPartition_exN (w : World) (p : String) (n : Nat) (s : St) :
    (waitPartition w p n s).exN = waitCount w p n s.exN := by
  obtain ⟨t, hw, -⟩ := waitPartition_split w p n s
  rw [hw]

/-- The waiting loop appends only existence queries and sleeps, so it
changes no command count. -/
theorem waitPartition_countA (w : World) (p : String) (n : Nat) (s : St)
    (q : Action → Bool) (hq1 : q (Action.aExistsQ p) = false)
    (hq2 : q (Action.aSleep 5) = false) :
    countA q (waitPartition w p n s).trace = countA q s.trace := by
  obtain ⟨t, hw, hmem⟩ := waitPartition_split w p n s
  rw [hw]
  have hz : countA q t = 0 := by
    simp only [countA]
    refine List.countP_eq_zero.mpr ?_
    intro a ha
    rcases hmem a ha with h | h <;> simp [h, hq1, hq2]
  simp [hz]

/-! ## Claim C1 -/

/-- C1 counterexample: a device classified GPT (probe output `"gpt"`,
exit 0) whose mount attempts all fail receives a format command through
the retry ladder's last-resort step: the format-command count is 1, not
0, refuting "if the device is classified GPT or Other, no
partition-creation and no format command is ever issued for that device
during the run, on any execution path including the mount retry
ladder". -/
theorem mount_gpt_format_cex :
    strHas (Wgpt.rgoRes 1 (probeCmd "/dev/sdc")).2 "gpt" = true
    ∧ strHas (Wgpt.rgoRes 1 (probeCmd "/dev/sdc")).2 "unrecognised" = false
    ∧ countA isMkpartA (mount_data_disk Wgpt "/m/sdc" (some "sdc") St.init).2.trace = 0
    ∧ countA isMkfsA (mount_data_disk Wgpt "/m/sdc" (some "sdc") St.init).2.trace
        = 1 := by
  decide

/-- C1 (amended): for every device whose probe succeeds: exactly one
GPT partition-creation command (`parted .. mklabel gpt mkpart ..`) is
issued iff the probe output contains the "unrecognised" marker, and
never otherwise — on every execution path; and the number of format
commands equals that baseline (1 for unrecognised, 0 for GPT/Other)
plus exactly one more, issued by the retry ladder's destructive
last-resort step, exactly when that step runs (`ladderHit`: the
partition node was found, the first mount attempt failed other than the
tolerated exit-32 case, and the re-read retry also failed). -/
theorem partition_format_policy (w : World) (dev mp out : String)
    (hmp : w.getMountPoint (w.rgoRes 0 "mount").2 ("/dev/" ++ dev) = none)
    (hmk : w.mkdirOk = true)
    (hpr : w.rgoRes 1 (probeCmd ("/dev/" ++ dev)) = (0, out)) :
    countA isMkpartA (mount_data_disk w mp (some dev) St.init).2.trace
      = (if strHas out "unrecognised" = true then 1 else 0)
    ∧ countA isMkfsA (mount_data_disk w mp (some dev) St.init).2.trace
      = (if strHas out "unrecognised" = true then 1 else 0)
        + (if ladderHit w mp dev = true then 1 else 0) := by
  rcases Bool.eq_false_or_eq_true (strHas out "unrecognised") with hu | hu <;>
  rcases Bool.eq_false_or_eq_true (w.existsRes
      (waitCount w ("/dev/" ++ dev ++ "1") 5 0) ("/dev/" ++ dev ++ "1")) with hnf | hnf <;>
  rcases Bool.eq_false_or_eq_true ((w.rgoRes 2 (get_mount_string w.conf_fs
      w.conf_mountOptions ("/dev/" ++ dev ++ "1") mp)).1 == 32
      && strHas (w.rgoRes 2 (get_mount_string w.conf_fs w.conf_mountOptions
        ("/dev/" ++ dev ++ "1") mp)).2 "is already mounted") with htol | htol <;>
  rcases Bool.eq_false_or_eq_true ((w.rgoRes 2 (get_mount_string w.conf_fs
      w.conf_mountOptions ("/dev/" ++ dev ++ "1") mp)).1 != 0) with hr1 | hr1 <;>
  rcases Bool.eq_false_or_eq_true ((w.rgoRes 3 (get_mount_string w.conf_fs
      w.conf_mountOptions ("/dev/" ++ dev ++ "1") mp)).1 != 0) with hr2 | hr2 <;>
    simp [mount_data_disk, reread_partition_table, rgoE, runE, existsE, pushA, warnE,
      St.init, hmp, hmk, hpr, hu, hnf, htol, hr1, hr2, ladderHit, nodeFound, tolerated32,
      waitPartition_rgoN, waitPartition_runN, waitPartition_exN, waitPartition_countA,
      isMkpartA, isMkfsA, isRunPre, isMountA, isRGOPre, isSfdiskA, isBlockdevA]

theorem partition_format_policy_witness :
    (Wgpt.getMountPoint (Wgpt.rgoRes 0 "mount").2 ("/dev/" ++ "sdc") = none
      ∧ Wgpt.mkdirOk = true
      ∧ Wgpt.rgoRes 1 (probeCmd ("/dev/" ++ "sdc")) = (0, "gpt"))
    ∧ (countA isMkpartA (mount_data_disk Wgpt "/m/sdc" (some "sdc") St.init).2.trace
        = (if strHas "gpt" "unrecognised" = true then 1 else 0)
      ∧ countA isMkfsA (mount_data_disk Wgpt "/m/sdc" (some "sdc") St.init).2.trace
        = (if strHas "gpt" "unrecognised" = true then 1 else 0)
          + (if ladderHit Wgpt "/m/sdc" "sdc" = true then 1 else 0)) :=
  ⟨⟨rfl, rfl, rfl⟩, partition_format_policy Wgpt "sdc" "/m/sdc" "gpt" rfl rfl rfl⟩

/-! ## Claim C2 -/

/-- C2: the mount retry ladder.  Under a mount-point-free, probe-clean
(`gpt`/other classification, so no baseline format), node-present run
whose first mount attempt fails other than the tolerated exit-32 case:
exactly one partition-table re-read happens (`sfdisk -R` once, with
`blockdev --rereadpt` exactly when sfdisk exits non-zero); if the single
mount retry succeeds there are two mount attempts, zero format calls and
the mount point is returned; if the retry also fails, exactly one format
command and exactly one final (third) mount attempt are issued, and a
failure of that final attempt raises `DataDiskError` carrying the exit
code and captured output. -/
theorem mount_retry_ladder (w : World) (dev mp out o1 : String) (r1 : Int)
    (hmp : w.getMountPoint (w.rgoRes 0 "mount").2 ("/dev/" ++ dev) = none)
    (hmk : w.mkdirOk = true)
    (hpr : w.rgoRes 1 (probeCmd ("/dev/" ++ dev)) = (0, out))
    (hout : strHas out "unrecognised" = false)
    (hex : ∀ n, w.existsRes n ("/dev/" ++ dev ++ "1") = true)
    (hm1 : w.rgoRes 2 (get_mount_string w.conf_fs w.conf_mountOptions
        ("/dev/" ++ dev ++ "1") mp) = (r1, o1))
    (h32 : (r1 == 32 && strHas o1 "is already mounted") = false)
    (h1 : r1 ≠ 0) :
    countA isSfdiskA (mount_data_disk w mp (some dev) St.init).2.trace = 1
    ∧ countA isBlockdevA (mount_data_disk w mp (some dev) St.init).2.trace
        = (if w.runRes 0 (sfdiskCmd ("/dev/" ++ dev)) = 0 then 0 else 1)
    ∧ ((w.rgoRes 3 (get_mount_string w.conf_fs w.conf_mountOptions
          ("/dev/" ++ dev ++ "1") mp)).1 = 0 →
        (mount_data_disk w mp (some dev) St.init).1 = .ok mp
        ∧ countA isMountA (mount_data_disk w mp (some dev) St.init).2.trace = 2
        ∧ countA isMkfsA (mount_data_disk w mp (some dev) St.init).2.trace = 0)
    ∧ ((w.rgoRes 3 (get_mount_string w.conf_fs w.conf_mountOptions
          ("/dev/" ++ dev ++ "1") mp)).1 ≠ 0 →
        countA isMkfsA (mount_data_disk w mp (some dev) St.init).2.trace = 1
        ∧ countA isMountA (mount_data_disk w mp (some dev) St.init).2.trace = 3
        ∧ ((w.rgoRes 4 (get_mount_string w.conf_fs w.conf_mountOptions
              ("/dev/" ++ dev ++ "1") mp)).1 = 0 →
            (mount_data_disk w mp (some dev) St.init).1 = .ok mp)
        ∧ ((w.rgoRes 4 (get_mount_string w.conf_fs w.conf_mountOptions
              ("/dev/" ++ dev ++ "1") mp)).1 ≠ 0 →
            (mount_data_disk w mp (some dev) St.init).1 =
              .error ⟨"Could not mount " ++ ("/dev/" ++ dev ++ "1")
                ++ " after syncing partition table: ["
                ++ toString (w.rgoRes 4 (get_mount_string w.conf_fs w.conf_mountOptions
                    ("/dev/" ++ dev ++ "1") mp)).1 ++ "] "
                ++ (w.rgoRes 4 (get_mount_string w.conf_fs w.conf_mountOptions
                    ("/dev/" ++ dev ++ "1") mp)).2⟩)) := by
  refine ⟨?_, ?_, ?_, ?_⟩
  · by_cases hsf : w.runRes 0 (sfdiskCmd ("/dev/" ++ dev)) = 0 <;>
      simp [mount_data_disk, reread_partition_table, rgoE, runE, existsE, pushA, warnE,
        St.init, hmp, hmk, hpr, hout, hex, waitPartition_found, hm1, h32, h1, hsf,
        isSfdiskA, isBlockdevA, isRunPre, isMountA, isRGOPre, isMkfsA]
  · by_cases hsf : w.runRes 0 (sfdiskCmd ("/dev/" ++ dev)) = 0 <;>
      simp [mount_data_disk, reread_partition_table, rgoE, runE, existsE, pushA, warnE,
        St.init, hmp, hmk, hpr, hout, hex, waitPartition_found, hm1, h32, h1, hsf,
        isSfdiskA, isBlockdevA, isRunPre, isMountA, isRGOPre, isMkfsA]
  · intro h2
    by_cases hsf : w.runRes 0 (sfdiskCmd ("/dev/" ++ dev)) = 0 <;>
      simp [mount_data_disk, reread_partition_table, rgoE, runE, existsE, pushA, warnE,
        St.init, hmp, hmk, hpr, hout, hex, waitPartition_found, hm1, h32, h1, hsf, h2,
        isSfdiskA, isBlockdevA, isRunPre, isMountA, isRGOPre, isMkfsA]
  · intro h2
    refine ⟨?_, ?_, fun h3 => ?_, fun h3 => ?_⟩ <;>
    · first
      | (by_cases hsf : w.runRes 0 (sfdiskCmd ("/dev/" ++ dev)) = 0 <;>
          simp [mount_data_disk, reread_partition_table, rgoE, runE, existsE, pushA,
            warnE, St.init, hmp, hmk, hpr, hout, hex, waitPartition_found, hm1, h32, h1,
            hsf, h2, h3, isSfdiskA, isBlockdevA, isRunPre, isMountA, isRGOPre, isMkfsA])
      | (by_cases hsf : w.runRes 0 (sfdiskCmd ("/dev/" ++ dev)) = 0 <;>
          simp [mount_data_disk, reread_partition_table, rgoE, runE, existsE, pushA,
            warnE, St.init, hmp, hmk, hpr, hout, hex, waitPartition_found, hm1, h32, h1,
            hsf, h2, isSfdiskA, isBlockdevA, isRunPre, isMountA, isRGOPre, isMkfsA])

theorem mount_retry_ladder_witness :
    (WgptRetryOk.getMountPoint (WgptRetryOk.rgoRes 0 "mount").2 ("/dev/" ++ "sdc") = none
      ∧ WgptRetryOk.mkdirOk = true
      ∧ WgptRetryOk.rgoRes 1 (probeCmd ("/dev/" ++ "sdc")) = (0, "gpt")
      ∧ strHas "gpt" "unrecognised" = false
      ∧ WgptRetryOk.rgoRes 2 (get_mount_string WgptRetryOk.conf_fs
          WgptRetryOk.conf_mountOptions ("/dev/" ++ "sdc" ++ "1") "/m/sdc") = (1, "mfail")
      ∧ (((1 : Int) == 32) && strHas "mfail" "is already mounted") = false
      ∧ (1 : Int) ≠ 0)
    ∧ (countA isSfdiskA
          (mount_data_disk WgptRetryOk "/m/sdc" (some "sdc") St.init).2.trace = 1
      ∧ countA isBlockdevA
            (mount_data_disk WgptRetryOk "/m/sdc" (some "sdc") St.init).2.trace
          = (if WgptRetryOk.runRes 0 (sfdiskCmd ("/dev/" ++ "sdc")) = 0 then 0 else 1)
      ∧ ((WgptRetryOk.rgoRes 3 (get_mount_string WgptRetryOk.conf_fs
            WgptRetryOk.conf_mountOptions ("/dev/" ++ "sdc" ++ "1") "/m/sdc")).1 = 0 →
          (mount_data_disk WgptRetryOk "/m/sdc" (some "sdc") St.init).1 = .ok "/m/sdc"
          ∧ countA isMountA
              (mount_data_disk WgptRetryOk "/m/sdc" (some "sdc") St.init).2.trace = 2
          ∧ countA isMkfsA
              (mount_data_disk WgptRetryOk "/m/sdc" (some "sdc") St.init).2.trace = 0)
      ∧ ((WgptRetryOk.rgoRes 3 (get_mount_string WgptRetryOk.conf_fs
            WgptRetryOk.conf_mountOptions ("/dev/" ++ "sdc" ++ "1") "/m/sdc")).1 ≠ 0 →
          countA isMkfsA
              (mount_data_disk WgptRetryOk "/m/sdc" (some "sdc") St.init).2.trace = 1
          ∧ countA isMountA
              (mount_data_disk WgptRetryOk "/m/sdc" (some "sdc") St.init).2.trace = 3
          ∧ ((WgptRetryOk.rgoRes 4 (get_mount_string WgptRetryOk.conf_fs
                WgptRetryOk.conf_mountOptions ("/dev/" ++ "sdc" ++ "1") "/m/sdc")).1 = 0 →
              (mount_data_disk WgptRetryOk "/m/sdc" (some "sdc") St.init).1
                = .ok "/m/sdc")
          ∧ ((WgptRetryOk.rgoRes 4 (get_mount_string WgptRetryOk.conf_fs
                WgptRetryOk.conf_mountOptions ("/dev/" ++ "sdc" ++ "1") "/m/sdc")).1 ≠ 0 →
              (mount_data_disk WgptRetryOk "/m/sdc" (some "sdc") St.init).1 =
                .error ⟨"Could not mount " ++ ("/dev/" ++ "sdc" ++ "1")
                  ++ " after syncing partition table: ["
                  ++ toString (WgptRetryOk.rgoRes 4 (get_mount_string WgptRetryOk.conf_fs
                      WgptRetryOk.conf_mountOptions ("/dev/" ++ "sdc" ++ "1")
                      "/m/sdc")).1 ++ "] "
                  ++ (WgptRetryOk.rgoRes 4 (get_mount_string WgptRetryOk.conf_fs
                      WgptRetryOk.conf_mountOptions ("/dev/" ++ "sdc" ++ "1")
                      "/m/sdc")).2⟩))) :=
  ⟨⟨rfl, rfl, rfl, by decide, rfl, by decide, by decide⟩,
    mount_retry_ladder WgptRetryOk "sdc" "/m/sdc" "gpt" "mfail" 1 rfl rfl rfl
      (by decide) (fun _ => rfl) rfl (by decide) (by decide)⟩

/-! ## Claim C4 -/

/-- C4 (bug evaluation): with the `xfs` filesystem configured (so the
`dd` fallback runs directly) and `nbytes = 64 MiB + 1 = 67108865`, with
every command succeeding, `mkfile` issues exactly two `dd` invocations
on the target — one 64 MiB block, then a single 1-byte block — and
reports success (returns 0).  Both built commands carry no
`seek=`/`oflag=append` flag, so both write at offset 0; under the
documented `dd` semantics (`ddResultSize`) the produced file holds
`max(67108864, 1) = 67108864` bytes, not the requested 67108865: the
allocator's "file of exactly N bytes" contract is violated by the
remainder pass. -/
theorem mkfile_dd_remainder_size_bug :
    (mkfile Wxfs "/m/swapfile" 67108865 St.init).1 = .ok 0
    ∧ (mkfile Wxfs "/m/swapfile" 67108865 St.init).2.trace =
        [.aIsFileQ "/m/swapfile",
         .aRun (ddCmd 67108864 1 (shQuote "/m/swapfile")) true,
         .aRun (ddCmd 1 1 (shQuote "/m/swapfile")) true]
    ∧ ddWritesOf (shQuote "/m/swapfile")
        (mkfile Wxfs "/m/swapfile" 67108865 St.init).2.trace = [(67108864, 1), (1, 1)]
    ∧ ddResultSize [(67108864, 1), (1, 1)] = 67108864
    ∧ (67108864 : Int) ≠ 67108865 :=
  ⟨rfl, by decide, by decide, by decide, by decide⟩

/-! ## Claim C9 -/

/-- C9: when a regular file exists at `<mount_point>/swapfile` whose
size equals `size_mb * 1024 * 1024` and which appears in the active swap
list, `create_swap_space` returns successfully with no allocation, no
`mkswap` and no `swapon` call: the final trace holds exactly the swap
list query, the three file queries, and — only when the existing file
has group/other permission bits — a `chmod` clearing those bits. -/
theorem swap_reuse_is_noop (w : World) (mp : String) (size_mb : Int)
    (hl : strHas (w.rgoRes 0 "swapon -s").2 (mp ++ "/swapfile") = true)
    (hf : w.isFileRes 0 (mp ++ "/swapfile") = true)
    (hs : w.sizeRes 0 (mp ++ "/swapfile") = size_mb * 1024 * 1024) :
    create_swap_space w mp size_mb St.init =
      (.ok (),
        { St.init with
            rgoN := 1
            fileN := 1
            sizeN := 1
            modeN := 1
            trace := [.aRGO "swapon -s" true, .aIsFileQ (mp ++ "/swapfile"),
                .aGetSizeQ (mp ++ "/swapfile"), .aStatQ (mp ++ "/swapfile")]
              ++ (if w.modeRes 0 (mp ++ "/swapfile") % 64 != 0 then
                    [.aChmod (mp ++ "/swapfile")
                      (w.modeRes 0 (mp ++ "/swapfile")
                        - w.modeRes 0 (mp ++ "/swapfile") % 64)]
                  else []) }) := by
  rcases Bool.eq_false_or_eq_true (w.modeRes 0 (mp ++ "/swapfile") % 64 != 0) with hm | hm <;>
    simp [create_swap_space, check_existing_swap_file, rgoE, isFileE, sizeE, modeE,
      chmodE, pushA, St.init, hl, hf, hs, hm]

theorem swap_reuse_is_noop_witness :
    (strHas (Wswap.rgoRes 0 "swapon -s").2 ("/m" ++ "/swapfile") = true
      ∧ Wswap.isFileRes 0 ("/m" ++ "/swapfile") = true
      ∧ Wswap.sizeRes 0 ("/m" ++ "/swapfile") = 1 * 1024 * 1024)
    ∧ create_swap_space Wswap "/m" 1 St.init =
        (.ok (),
          { St.init with
              rgoN := 1
              fileN := 1
              sizeN := 1
              modeN := 1
              trace := [.aRGO "swapon -s" true, .aIsFileQ ("/m" ++ "/swapfile"),
                .aGetSizeQ ("/m" ++ "/swapfile"), .aStatQ ("/m" ++ "/swapfile"),
                .aChmod ("/m" ++ "/swapfile") 384] }) :=
  ⟨⟨by decide, rfl, by decide⟩,
    swap_reuse_is_noop Wswap "/m" 1 (by decide) rfl (by decide)⟩

/-! ## Claim C10 -/

/-- C10: calling `mkfile` with `nbytes ≤ 0` raises the size-validation
`DataDiskError` before any filesystem action: the returned state equals
the input state, so in particular no removal of a pre-existing file at
the target path is performed. -/
theorem mkfile_invalid_size_is_pure (w : World) (filename : String) (nbytes : Int)
    (s : St) (h : nbytes ≤ 0) :
    mkfile w filename nbytes s =
      (.error ⟨"Invalid swap size [" ++ toString nbytes ++ "]"⟩, s) := by
  simp [mkfile, h]

theorem mkfile_invalid_size_is_pure_witness :
    (0 : Int) ≤ 0 ∧
      mkfile { Wbase with isFileRes := fun _ _ => true } "/m/swapfile" 0 St.init =
        (.error ⟨"Invalid swap size [0]"⟩, St.init) :=
  ⟨by decide,
    mkfile_invalid_size_is_pure { Wbase with isFileRes := fun _ _ => true }
      "/m/swapfile" 0 St.init (by decide)⟩

/-! ## Claim C5 -/

/-- C5: if the query of current mounts reports the raw device as already
mounted, `mount_data_disk` returns that mount point immediately, and the
trace holds only the mount listing and the mount-point lookup — no
directory creation, no partition probe, no partitioning or formatting
command, and no mount command are issued.  (In particular a second call
on the same device returns the same mount point and issues no second
mount command.) -/
theorem mount_is_idempotent_short_circuit (w : World) (dev mp e : String)
    (h : w.getMountPoint (w.rgoRes 0 "mount").2 ("/dev/" ++ dev) = some e) :
    mount_data_disk w mp (some dev) St.init =
      (.ok e,
        { St.init with
            rgoN := 1
            trace := [.aRGO "mount" true, .aGetMountPointQ ("/dev/" ++ dev)] }) := by
  simp [mount_data_disk, rgoE, pushA, St.init, h]

theorem mount_is_idempotent_short_circuit_witness :
    Wmounted.getMountPoint (Wmounted.rgoRes 0 "mount").2 ("/dev/" ++ "sdc") =
        some "/m/sdc" ∧
      mount_data_disk Wmounted "/mnt/other" (some "sdc") St.init =
        (.ok "/m/sdc",
          { St.init with
              rgoN := 1
              trace := [.aRGO "mount" true, .aGetMountPointQ ("/dev/" ++ "sdc")] }) :=
  ⟨rfl, mount_is_idempotent_short_circuit Wmounted "sdc" "/mnt/other" "/m/sdc" rfl⟩

end DataDisk
